import Mathlib

/-!
Shallow embedding of the dualconn package (smallnest/dualconn): a dual-path
probe connection owning a raw IPv4 send socket and a kernel UDP receive
socket (src/dualconn.go).

External effects — the socket system calls, the BPF assembler, the external
tcpdump-expression compiler, the packet-layer encoder — are modelled as
oracle parameters: each fallible external call takes the outcome the
environment produced for it, and the embedding mirrors the Go control flow
over those outcomes, recording which resources were created and closed.
The correlation-header codec (EncodePayloadWithPort / DecodePayload /
ComparePayload) is part of the repository but not among the given source
files; it is modelled from the specification, as marked on each definition.
-/

namespace Dualconn

/-- Go error values: either a base error or an error wrapped by
fmt.Errorf with a message and a wrapped cause (the Go w verb). -/
inductive GoError where
  | base (msg : String)
  | wrapped (msg : String) (cause : GoError)
deriving DecidableEq

/-- One BPF instruction as used by this package (golang.org/x/net/bpf).
Only RetConstant occurs in the source. -/
inductive BpfInstruction where
  | retConstant (val : Nat)
deriving DecidableEq

/-- Go createDropAllBPF (src/dualconn.go line 83): the drop-all filter
program, a single RetConstant instruction with value 0. -/
def createDropAllBPF : List BpfInstruction :=
  [BpfInstruction.retConstant 0]

/-- BPF semantics for the instruction set this package uses: running a
program on a packet yields the number of bytes the filter accepts
(RetConstant with value v unconditionally returns v); none for the empty
program. -/
def runBPF (prog : List BpfInstruction) (packet : List Nat) : Option Nat :=
  match prog with
  | [] => none
  | BpfInstruction.retConstant v :: _ => some v

/-- Bytes of an inbound packet the kernel delivers to a socket filtered by
prog: the first v bytes when the filter returns accept-v-bytes. -/
def deliveredBytes (prog : List BpfInstruction) (packet : List Nat) : List Nat :=
  match runBPF prog packet with
  | some v => packet.take v
  | none => packet

/-- Go struct DualConn (src/dualconn.go lines 21-32).  Socket handles are
modelled as numeric identifiers; timeout is a time.Duration (int64
nanoseconds), tos and ttl are uint8 values, ipv4Flag an IPv4Flag (uint8).
The Go zero values are the empty string, 0 and 0. -/
structure DualConn where
  sendConn : Nat
  recvConn : Nat
  localIP : String
  timeout : Int
  tos : Nat
  ttl : Nat
  ipv4Flag : Nat
deriving DecidableEq

/-- Outcomes the environment produces for the five fallible external calls
NewDualConn makes, in program order: net.ListenPacket, ipv4.NewRawConn,
bpf.Assemble, RawConn.SetBPF, net.ListenUDP.  A none entry means the call
succeeds; some e means it fails with error e. -/
structure OpenEnv where
  listenPacketErr : Option GoError
  newRawConnErr : Option GoError
  assembleErr : Option GoError
  setBPFErr : Option GoError
  listenUDPErr : Option GoError

/-- What an invocation of NewDualConn did: its result, which sockets it
created and which it closed.  pconn is the packet connection returned by
net.ListenPacket; sendConn the raw connection wrapping it (closing
sendConn closes the wrapped pconn); recvConn the kernel UDP socket.
filterInstalled records the BPF program installed on the send socket. -/
structure OpenOutcome where
  result : Except GoError DualConn
  pconnCreated : Bool
  pconnClosedDirect : Bool
  sendConnCreated : Bool
  sendConnClosed : Bool
  recvConnCreated : Bool
  filterInstalled : Option (List BpfInstruction)

/-- Go NewDualConn (src/dualconn.go lines 40-81), mirroring its control
flow over the environment's outcomes.  On ListenPacket failure nothing was
created; on NewRawConn failure pconn.Close() is called; on Assemble,
SetBPF or ListenUDP failure sendConn.Close() is called; on success the
returned struct sets only sendConn, recvConn and ttl: 64, leaving
localIP, timeout, tos and ipv4Flag at their Go zero values. -/
def NewDualConn (localAddr : String) (port : Int) (env : OpenEnv) : OpenOutcome :=
  match env.listenPacketErr with
  | some e =>
    { result := .error e, pconnCreated := false, pconnClosedDirect := false,
      sendConnCreated := false, sendConnClosed := false, recvConnCreated := false,
      filterInstalled := none }
  | none =>
    match env.newRawConnErr with
    | some e =>
      { result := .error e, pconnCreated := true, pconnClosedDirect := true,
        sendConnCreated := false, sendConnClosed := false, recvConnCreated := false,
        filterInstalled := none }
    | none =>
      match env.assembleErr with
      | some e =>
        { result := .error e, pconnCreated := true, pconnClosedDirect := false,
          sendConnCreated := true, sendConnClosed := true, recvConnCreated := false,
          filterInstalled := none }
      | none =>
        match env.setBPFErr with
        | some e =>
          { result := .error e, pconnCreated := true, pconnClosedDirect := false,
            sendConnCreated := true, sendConnClosed := true, recvConnCreated := false,
            filterInstalled := none }
        | none =>
          match env.listenUDPErr with
          | some e =>
            { result := .error e, pconnCreated := true, pconnClosedDirect := false,
              sendConnCreated := true, sendConnClosed := true, recvConnCreated := false,
              filterInstalled := some createDropAllBPF }
          | none =>
            { result := .ok { sendConn := 1, recvConn := 2, localIP := "",
                              timeout := 0, tos := 0, ttl := 64, ipv4Flag := 0 },
              pconnCreated := true, pconnClosedDirect := false,
              sendConnCreated := true, sendConnClosed := false, recvConnCreated := true,
              filterInstalled := some createDropAllBPF }

/-- Go SetTimeout (src/dualconn.go line 90): stores the timeout. -/
def SetTimeout (c : DualConn) (timeout : Int) : DualConn :=
  { c with timeout := timeout }

/-- Go SetTOS (src/dualconn.go line 95): stores the TOS byte. -/
def SetTOS (c : DualConn) (tos : Nat) : DualConn :=
  { c with tos := tos }

/-- Go SetTTL (src/dualconn.go line 100): stores the TTL byte. -/
def SetTTL (c : DualConn) (ttl : Nat) : DualConn :=
  { c with ttl := ttl }

/-- Go SetIPv4Flag (src/dualconn.go line 105): stores the IPv4 flag. -/
def SetIPv4Flag (c : DualConn) (flag : Nat) : DualConn :=
  { c with ipv4Flag := flag }

/-- What a WriteToIP invocation produced: the returned byte count and
error, plus the source address that was handed to EncodeIPPacket when the
packet was built. -/
structure WriteOutcome where
  n : Nat
  err : Option GoError
  encodeSourceIP : String
deriving DecidableEq

/-- Go WriteToIP (src/dualconn.go lines 110-128).  encodeIPPacket is the
oracle for the external EncodeIPPacket call, as a function of the
effective source address (the remaining arguments are those of the call
being modelled); writeResult is the oracle for sendConn.WriteToIP.
Mirrors the empty-localIP substitution from the struct field and the two
error-wrapping sites, each returning a byte count of 0. -/
def WriteToIP (c : DualConn) (localIP : String)
    (encodeIPPacket : String → Except GoError (List Nat))
    (writeResult : Except GoError Nat) : WriteOutcome :=
  let localIP := if localIP = "" then c.localIP else localIP
  match encodeIPPacket localIP with
  | .error e =>
    { n := 0, err := some (.wrapped "failed to encode IP packet" e),
      encodeSourceIP := localIP }
  | .ok _ =>
    match writeResult with
    | .error e =>
      { n := 0, err := some (.wrapped "failed to write to IP" e),
        encodeSourceIP := localIP }
    | .ok n => { n := n, err := none, encodeSourceIP := localIP }

/-- Events on the session's two sockets, used to trace Close. -/
inductive SocketEvent where
  | closeSend
  | closeRecv
deriving DecidableEq

/-- Go Close (src/dualconn.go lines 173-176): first sendConn.Close() with
its result discarded, then recvConn.Close() whose result is returned.
The trace lists the close calls in the order they are attempted. -/
def Close (c : DualConn) (sendCloseErr recvCloseErr : Option GoError) :
    List SocketEvent × Option GoError :=
  let _ := c
  let _ := sendCloseErr
  ([SocketEvent.closeSend, SocketEvent.closeRecv], recvCloseErr)

/-- One raw (assembled) BPF instruction, as in golang.org/x/net/bpf. -/
structure RawInstruction where
  op : Nat
  jt : Nat
  jf : Nat
  k : Nat
deriving DecidableEq

/-- Go SetBBF (src/dualconn.go line 161): forwards the pre-assembled
filter to sendConn.SetBPF and returns its result. -/
def SetBBF (c : DualConn) (filter : List RawInstruction)
    (setBPF : List RawInstruction → Option GoError) : Option GoError :=
  let _ := c
  setBPF filter

/-- Go SetBBFExpr (src/dualconn.go lines 167-170): calls the external
compiler qbpf.ParseTcpdumpFitlerData(expr) — whose Go signature returns
only a filter program, no error value — then returns
sendConn.SetBPF(filter).  parseTcpdumpFitlerData is the oracle for the
external compiler call, setBPF the oracle for the installation. -/
def SetBBFExpr (c : DualConn) (expr : String)
    (parseTcpdumpFitlerData : String → List RawInstruction)
    (setBPF : List RawInstruction → Option GoError) : Option GoError :=
  let _ := c
  setBPF (parseTcpdumpFitlerData expr)

/-- Modelled from the spec: the external filter-expression compiler with
its own error channel (the FilterCompiler capability of the design notes;
the compiler itself is outside this repository).  This concrete instance
fails on the ill-formed expression "udp and (" and compiles everything
else to some program. -/
def specFilterCompiler : String → Except GoError (List RawInstruction) :=
  fun expr =>
    if expr = "udp and (" then .error (.base "expression compile error")
    else .ok [{ op := 6, jt := 0, jf := 0, k := 262144 }]

/-- The external ParseTcpdumpFitlerData as seen from SetBBFExpr: its Go
signature returns only a filter program, so whatever error the compiler
produced internally cannot accompany the returned value (a failure yields
a program value such as the empty program). -/
def adaptCompiler (compile : String → Except GoError (List RawInstruction)) :
    String → List RawInstruction :=
  fun expr =>
    match compile expr with
    | .ok prog => prog
    | .error _ => []

/-- A concrete session value used by closed counterexample statements. -/
def sampleConn : DualConn :=
  { sendConn := 1, recvConn := 2, localIP := "", timeout := 0,
    tos := 0, ttl := 64, ipv4Flag := 0 }

/-- Size of the correlation header: 8 + 8 + 2 + 2 + 1 = 21 bytes. -/
def headerSize : Nat := 21

/-- Big-endian serialization of v into w bytes, most significant first. -/
def toBytesBE (w v : Nat) : List Nat :=
  match w with
  | 0 => []
  | w + 1 => toBytesBE w (v / 256) ++ [v % 256]

/-- Big-endian deserialization of a byte list. -/
def fromBytesBE (bs : List Nat) : Nat :=
  bs.foldl (fun acc b => acc * 256 + b) 0

/-- Modelled from the spec: the filler byte of a payload kind.  The spec
leaves the exact fill pattern open; it is fixed here as the kind byte
itself, used consistently by the encoder and payload maker. -/
def fillByte (payloadKind : Nat) : Nat := payloadKind % 256

/-- Modelled from the spec: EncodePayloadWithPort — the correlation-header
encoder is part of the repository but not among the given source files.
Writes timestamp (8 bytes), sequence (8), source port (2), destination
port (2) and payload kind (1) big-endian at offset 0, fills the remainder
of the buffer by the kind's fill rule, and fails if the buffer is shorter
than headerSize. -/
def EncodePayloadWithPort (timestamp seq srcPort dstPort payloadKind : Nat)
    (payload : List Nat) : Except String (List Nat) :=
  if payload.length < headerSize then
    .error "payload is too short"
  else
    .ok (toBytesBE 8 timestamp ++ toBytesBE 8 seq ++ toBytesBE 2 srcPort ++
         toBytesBE 2 dstPort ++ [payloadKind % 256] ++
         List.replicate (payload.length - headerSize) (fillByte payloadKind))

/-- Modelled from the spec: DecodePayload — the correlation-header decoder
is part of the repository but not among the given source files.  Reads
back timestamp (offset 0, 8 bytes), sequence (offset 8, 8 bytes) and
payload kind (offset 20, 1 byte); fails if the buffer is shorter than
headerSize.  The payload kind is not validated against a known set. -/
def DecodePayload (buf : List Nat) : Except String (Nat × Nat × Nat) :=
  if buf.length < headerSize then
    .error "buffer is too short"
  else
    .ok (fromBytesBE (buf.take 8), fromBytesBE ((buf.drop 8).take 8),
         (buf.drop 20).headD 0)

/-- Modelled from the spec: ComparePayload — part of the repository but
not among the given source files.  Byte-wise equality restricted to the
region from bodyOffset of length bodyLength on both buffers; fails if
either buffer is shorter than bodyOffset + bodyLength. -/
def ComparePayload (a b : List Nat) (bodyOffset bodyLength : Nat) :
    Except String Bool :=
  if a.length < bodyOffset + bodyLength then
    .error "first buffer is too short"
  else if b.length < bodyOffset + bodyLength then
    .error "second buffer is too short"
  else
    .ok ((a.drop bodyOffset).take bodyLength == (b.drop bodyOffset).take bodyLength)

/-- Length of the big-endian serialization. -/
theorem toBytesBE_length (w v : Nat) : (toBytesBE w v).length = w := by
  induction w generalizing v with
  | zero => rfl
  | succ w ih => simp [toBytesBE, ih]

/-- Appending one byte multiplies the accumulated value by 256. -/
theorem fromBytesBE_append_singleton (xs : List Nat) (b : Nat) :
    fromBytesBE (xs ++ [b]) = fromBytesBE xs * 256 + b := by
  simp [fromBytesBE, List.foldl_append]

/-- Big-endian round trip for values below 256 to the width. -/
theorem fromBytesBE_toBytesBE (w v : Nat) (h : v < 256 ^ w) :
    fromBytesBE (toBytesBE w v) = v := by
  induction w generalizing v with
  | zero =>
    interval_cases v
    rfl
  | succ w ih =>
    have hdiv : v / 256 < 256 ^ w := by
      rw [Nat.div_lt_iff_lt_mul (by norm_num)]
      calc v < 256 ^ (w + 1) := h
        _ = 256 ^ w * 256 := by ring
    rw [toBytesBE, fromBytesBE_append_singleton, ih _ hdiv]
    rw [Nat.mul_comm]
    exact Nat.div_add_mod v 256

/-- Decoding a buffer that starts with an encoded header recovers the
timestamp, sequence and kind, whatever the filler bytes are. -/
theorem decodePayload_header (ts sq sp dp k : Nat) (rest : List Nat)
    (hts : ts < 256 ^ 8) (hsq : sq < 256 ^ 8) :
    DecodePayload (toBytesBE 8 ts ++ toBytesBE 8 sq ++ toBytesBE 2 sp ++
      toBytesBE 2 dp ++ [k] ++ rest) = .ok (ts, sq, k) := by
  have hA : (toBytesBE 8 ts).length = 8 := toBytesBE_length 8 ts
  have hB : (toBytesBE 8 sq).length = 8 := toBytesBE_length 8 sq
  have hbuf8 : toBytesBE 8 ts ++ toBytesBE 8 sq ++ toBytesBE 2 sp ++
      toBytesBE 2 dp ++ [k] ++ rest =
      toBytesBE 8 ts ++ (toBytesBE 8 sq ++
        (toBytesBE 2 sp ++ toBytesBE 2 dp ++ ([k] ++ rest))) := by
    simp [List.append_assoc]
  have hbuf20 : toBytesBE 8 ts ++ toBytesBE 8 sq ++ toBytesBE 2 sp ++
      toBytesBE 2 dp ++ [k] ++ rest =
      (toBytesBE 8 ts ++ toBytesBE 8 sq ++ toBytesBE 2 sp ++ toBytesBE 2 dp) ++
        (k :: rest) := by
    simp [List.append_assoc]
  have hlen : ¬ ((toBytesBE 8 ts ++ toBytesBE 8 sq ++ toBytesBE 2 sp ++
      toBytesBE 2 dp ++ [k] ++ rest).length < headerSize) := by
    simp [toBytesBE_length, headerSize]
    omega
  have e1 : (toBytesBE 8 ts ++ toBytesBE 8 sq ++ toBytesBE 2 sp ++
      toBytesBE 2 dp ++ [k] ++ rest).take 8 = toBytesBE 8 ts := by
    rw [hbuf8]; exact List.take_left' hA
  have e2 : ((toBytesBE 8 ts ++ toBytesBE 8 sq ++ toBytesBE 2 sp ++
      toBytesBE 2 dp ++ [k] ++ rest).drop 8).take 8 = toBytesBE 8 sq := by
    rw [hbuf8, List.drop_left' hA]
    rw [show toBytesBE 8 sq ++ (toBytesBE 2 sp ++ toBytesBE 2 dp ++ ([k] ++ rest)) =
      toBytesBE 8 sq ++ (toBytesBE 2 sp ++ toBytesBE 2 dp ++ ([k] ++ rest)) from rfl]
    exact List.take_left' hB
  have e3 : (toBytesBE 8 ts ++ toBytesBE 8 sq ++ toBytesBE 2 sp ++
      toBytesBE 2 dp ++ [k] ++ rest).drop 20 = k :: rest := by
    rw [hbuf20]
    exact List.drop_left' (by simp [toBytesBE_length])
  rw [DecodePayload, if_neg hlen, e1, e2, e3]
  rw [fromBytesBE_toBytesBE 8 ts hts, fromBytesBE_toBytesBE 8 sq hsq]
  rfl

/-- Claim C1: whenever a setup step of NewDualConn fails after the raw
send socket was created — raw-connection wrapping, filter assembly,
filter installation, or the kernel UDP bind — the already-created raw
socket is closed before the error is returned (for the wrapping failure
the underlying packet connection is closed directly), and the kernel
receive socket was never created, so no socket remains open after a
failed open. -/
theorem C1_open_releases_resources_on_failure (localAddr : String) (port : Int)
    (env : OpenEnv) (e : GoError)
    (hres : (NewDualConn localAddr port env).result = .error e)
    (hp : (NewDualConn localAddr port env).pconnCreated = true) :
    ((NewDualConn localAddr port env).sendConnCreated = true →
      (NewDualConn localAddr port env).sendConnClosed = true) ∧
    ((NewDualConn localAddr port env).sendConnCreated = false →
      (NewDualConn localAddr port env).pconnClosedDirect = true) ∧
    (NewDualConn localAddr port env).recvConnCreated = false := by
  obtain ⟨lp, nr, asm, sb, lu⟩ := env
  cases lp <;> cases nr <;> cases asm <;> cases sb <;> cases lu <;>
    simp_all [NewDualConn]

/-- Witness for C1 at a concrete failing environment: the kernel UDP bind
fails after the raw socket was created and installed with the filter. -/
theorem C1_open_witness :
    ((NewDualConn "127.0.0.1" 40000
        ⟨none, none, none, none,
          some (GoError.base "bind: address already in use")⟩).sendConnCreated = true →
      (NewDualConn "127.0.0.1" 40000
        ⟨none, none, none, none,
          some (GoError.base "bind: address already in use")⟩).sendConnClosed = true) ∧
    ((NewDualConn "127.0.0.1" 40000
        ⟨none, none, none, none,
          some (GoError.base "bind: address already in use")⟩).sendConnCreated = false →
      (NewDualConn "127.0.0.1" 40000
        ⟨none, none, none, none,
          some (GoError.base "bind: address already in use")⟩).pconnClosedDirect = true) ∧
    (NewDualConn "127.0.0.1" 40000
        ⟨none, none, none, none,
          some (GoError.base "bind: address already in use")⟩).recvConnCreated = false :=
  C1_open_releases_resources_on_failure "127.0.0.1" 40000
    ⟨none, none, none, none, some (GoError.base "bind: address already in use")⟩
    (GoError.base "bind: address already in use") rfl rfl

/-- Claim C2: for every 64-bit timestamp and sequence, 16-bit ports, 8-bit
payload kind and buffer of length at least 21, encoding the fields and
then decoding the encoded buffer recovers exactly the same timestamp,
sequence and payload kind. -/
theorem C2_encode_decode_roundtrip (timestamp seq srcPort dstPort payloadKind : Nat)
    (payload : List Nat)
    (hts : timestamp < 2 ^ 64) (hsq : seq < 2 ^ 64)
    (hsp : srcPort < 2 ^ 16) (hdp : dstPort < 2 ^ 16)
    (hk : payloadKind < 2 ^ 8) (hlen : headerSize ≤ payload.length) :
    ∃ out, EncodePayloadWithPort timestamp seq srcPort dstPort payloadKind payload =
        .ok out ∧
      DecodePayload out = .ok (timestamp, seq, payloadKind) := by
  have h256 : (256 : Nat) ^ 8 = 2 ^ 64 := by norm_num
  have hkind : payloadKind % 256 = payloadKind :=
    Nat.mod_eq_of_lt (by simpa using hk)
  have henc : EncodePayloadWithPort timestamp seq srcPort dstPort payloadKind payload =
      .ok (toBytesBE 8 timestamp ++ toBytesBE 8 seq ++ toBytesBE 2 srcPort ++
        toBytesBE 2 dstPort ++ [payloadKind % 256] ++
        List.replicate (payload.length - headerSize) (fillByte payloadKind)) := by
    rw [EncodePayloadWithPort, if_neg (by omega)]
  refine ⟨_, henc, ?_⟩
  rw [hkind]
  exact decodePayload_header timestamp seq srcPort dstPort payloadKind _
    (h256 ▸ hts) (h256 ▸ hsq)

/-- Witness for C2 at concrete values from the spec's end-to-end
scenario. -/
theorem C2_roundtrip_witness :
    ∃ out, EncodePayloadWithPort 1000 1 100 200 1 (List.replicate 64 0) = .ok out ∧
      DecodePayload out = .ok (1000, 1, 1) :=
  C2_encode_decode_roundtrip 1000 1 100 200 1 (List.replicate 64 0)
    (by norm_num) (by norm_num) (by norm_num) (by norm_num) (by norm_num)
    (by simp [headerSize])

/-- Claim C3 is a code bug: the DualConn struct field localIP is never
assigned anywhere in the package — NewDualConn receives the local bind
address but does not store it — so the empty-localIP substitution in
WriteToIP substitutes the empty string, not the address the session was
opened with.  Here a session opened with address 127.0.0.1 builds its
packet with source address the empty string. -/
theorem C3_write_uses_unset_localIP :
    ∃ c : DualConn,
      (NewDualConn "127.0.0.1" 40000 ⟨none, none, none, none, none⟩).result = .ok c ∧
      c.localIP = "" ∧
      (WriteToIP c "" (fun ip => .ok (ip.toList.map Char.toNat))
        (.ok 0)).encodeSourceIP = "" ∧
      ("" : String) ≠ "127.0.0.1" :=
  ⟨sampleConn, rfl, rfl, rfl, by decide⟩

/-- Claim C4: a WriteToIP error is wrapped so that a packet-construction
failure is distinguishable from a socket-write failure, the two wrapping
messages being distinct, and in both error cases the returned byte count
is 0. -/
theorem C4_write_error_wrapping (c : DualConn) (localIP : String)
    (encodeIPPacket : String → Except GoError (List Nat))
    (writeResult : Except GoError Nat) :
    (∀ e, encodeIPPacket (if localIP = "" then c.localIP else localIP) = .error e →
      WriteToIP c localIP encodeIPPacket writeResult =
        { n := 0, err := some (.wrapped "failed to encode IP packet" e),
          encodeSourceIP := if localIP = "" then c.localIP else localIP }) ∧
    (∀ data e, encodeIPPacket (if localIP = "" then c.localIP else localIP) = .ok data →
      writeResult = .error e →
      WriteToIP c localIP encodeIPPacket writeResult =
        { n := 0, err := some (.wrapped "failed to write to IP" e),
          encodeSourceIP := if localIP = "" then c.localIP else localIP }) ∧
    ((WriteToIP c localIP encodeIPPacket writeResult).err ≠ none →
      (WriteToIP c localIP encodeIPPacket writeResult).n = 0) ∧
    ("failed to encode IP packet" : String) ≠ "failed to write to IP" := by
  refine ⟨?_, ?_, ?_, by decide⟩
  · intro e he
    simp only [WriteToIP.eq_def, he]
  · intro data e hd hw
    simp only [WriteToIP.eq_def, hd, hw]
  · intro hne
    simp only [WriteToIP.eq_def] at hne ⊢
    rcases h1 : encodeIPPacket (if localIP = "" then c.localIP else localIP) with e1 | d1 <;>
      rcases h2 : writeResult with e2 | n2 <;> simp_all

/-- Witness for C4 at a concrete construction failure. -/
theorem C4_write_witness :
    WriteToIP sampleConn "10.0.0.1" (fun _ => .error (.base "bad address")) (.ok 3) =
      { n := 0, err := some (.wrapped "failed to encode IP packet" (.base "bad address")),
        encodeSourceIP := "10.0.0.1" } :=
  (C4_write_error_wrapping sampleConn "10.0.0.1"
    (fun _ => .error (.base "bad address")) (.ok 3)).1 (.base "bad address") rfl

/-- Claim C5: Close always attempts to close the raw send socket first,
discarding its outcome, then closes the kernel receive socket and returns
the receive-socket close result; whatever the send-socket close produced,
the receive-socket close is attempted and its result returned. -/
theorem C5_close_attempts_both (c : DualConn) (sendCloseErr recvCloseErr : Option GoError) :
    Close c sendCloseErr recvCloseErr =
      ([SocketEvent.closeSend, SocketEvent.closeRecv], recvCloseErr) := rfl

/-- Claim C6: the drop-all filter program installed on the raw send
socket at open time is exactly one instruction, an unconditional return
of the constant 0, so every inbound packet delivered through it is
truncated to zero bytes; and every successful open installs exactly this
program on the send socket. -/
theorem C6_drop_all_filter :
    createDropAllBPF = [BpfInstruction.retConstant 0] ∧
    createDropAllBPF.length = 1 ∧
    (∀ packet, runBPF createDropAllBPF packet = some 0) ∧
    (∀ packet, deliveredBytes createDropAllBPF packet = []) ∧
    (∀ localAddr port env c, (NewDualConn localAddr port env).result = .ok c →
      (NewDualConn localAddr port env).filterInstalled = some createDropAllBPF) := by
  refine ⟨rfl, rfl, fun _ => rfl, fun _ => rfl, ?_⟩
  intro localAddr port env c h
  obtain ⟨lp, nr, asm, sb, lu⟩ := env
  cases lp <;> cases nr <;> cases asm <;> cases sb <;> cases lu <;>
    simp_all [NewDualConn]

/-- Witness for C6 at a concrete successful open. -/
theorem C6_filter_witness :
    (NewDualConn "127.0.0.1" 40000 ⟨none, none, none, none, none⟩).filterInstalled =
      some createDropAllBPF :=
  C6_drop_all_filter.2.2.2.2 "127.0.0.1" 40000 ⟨none, none, none, none, none⟩
    sampleConn rfl

/-- Claim C7, counterexample: the external compiler call in SetBBFExpr
returns only a filter program, no error value, so a compiler failure is
not propagated — on an expression the compiler fails on, SetBBFExpr
returns the installation result (here nil), not the compiler's error. -/
theorem C7_compiler_error_not_returned :
    specFilterCompiler "udp and (" = .error (.base "expression compile error") ∧
    SetBBFExpr sampleConn "udp and (" (adaptCompiler specFilterCompiler)
      (fun _ => none) = none ∧
    (none : Option GoError) ≠ some (.base "expression compile error") :=
  ⟨rfl, rfl, by decide⟩

/-- Claim C7 as amended: SetBBFExpr hands the compiled program to
sendConn.SetBPF and returns exactly the installation result; the external
compiler's interface yields no error value, so the only error SetBBFExpr
can return is the filter-installation error. -/
theorem C7_expr_returns_install_error (c : DualConn) (expr : String)
    (parseTcpdumpFitlerData : String → List RawInstruction)
    (setBPF : List RawInstruction → Option GoError) :
    SetBBFExpr c expr parseTcpdumpFitlerData setBPF =
      setBPF (parseTcpdumpFitlerData expr) := rfl

/-- Claim C8: immediately after a successful open, the session's TTL is
64 and the timeout, TOS, IPv4 flag and local-address fields hold their
zero values. -/
theorem C8_open_defaults (localAddr : String) (port : Int) (env : OpenEnv)
    (c : DualConn)
    (h : (NewDualConn localAddr port env).result = .ok c) :
    c.ttl = 64 ∧ c.timeout = 0 ∧ c.tos = 0 ∧ c.ipv4Flag = 0 ∧ c.localIP = "" := by
  obtain ⟨lp, nr, asm, sb, lu⟩ := env
  cases lp <;> cases nr <;> cases asm <;> cases sb <;> cases lu <;>
    simp_all [NewDualConn] <;> simp [← h]

/-- Witness for C8 at a concrete successful open. -/
theorem C8_defaults_witness :
    sampleConn.ttl = 64 ∧ sampleConn.timeout = 0 ∧ sampleConn.tos = 0 ∧
      sampleConn.ipv4Flag = 0 ∧ sampleConn.localIP = "" :=
  C8_open_defaults "127.0.0.1" 40000 ⟨none, none, none, none, none⟩ sampleConn rfl

/-- Claim C9: ComparePayload returns true exactly when the two buffers
agree byte-wise on the region from bodyOffset of length bodyLength —
independently of the header region before bodyOffset — and fails with an
error when either buffer is shorter than bodyOffset + bodyLength. -/
theorem C9_compare_payload (a b : List Nat) (bodyOffset bodyLength : Nat) :
    (bodyOffset + bodyLength ≤ a.length → bodyOffset + bodyLength ≤ b.length →
      (ComparePayload a b bodyOffset bodyLength = .ok true ↔
        (a.drop bodyOffset).take bodyLength = (b.drop bodyOffset).take bodyLength)) ∧
    (a.length < bodyOffset + bodyLength ∨ b.length < bodyOffset + bodyLength →
      ∃ msg, ComparePayload a b bodyOffset bodyLength = .error msg) ∧
    (∀ h₁ h₂ h₃ h₄ : List Nat, h₁.length = bodyOffset → h₂.length = bodyOffset →
      h₃.length = bodyOffset → h₄.length = bodyOffset → ∀ ta tb,
      ComparePayload (h₁ ++ ta) (h₂ ++ tb) bodyOffset bodyLength =
        ComparePayload (h₃ ++ ta) (h₄ ++ tb) bodyOffset bodyLength) := by
  refine ⟨?_, ?_, ?_⟩
  · intro ha hb
    rw [ComparePayload, if_neg (by omega), if_neg (by omega)]
    simp [beq_iff_eq]
  · intro h
    by_cases ha : a.length < bodyOffset + bodyLength
    · exact ⟨_, by rw [ComparePayload, if_pos ha]⟩
    · have hb : b.length < bodyOffset + bodyLength := by tauto
      exact ⟨_, by rw [ComparePayload, if_neg ha, if_pos hb]⟩
  · intro h₁ h₂ h₃ h₄ hl1 hl2 hl3 hl4 ta tb
    rw [ComparePayload, ComparePayload]
    simp [List.length_append, hl1, hl2, hl3, hl4,
      List.drop_left' hl1, List.drop_left' hl2, List.drop_left' hl3,
      List.drop_left' hl4]

/-- Witness for C9 at concrete equal buffers. -/
theorem C9_compare_witness :
    ComparePayload (List.replicate 25 7) (List.replicate 25 7) 21 4 = .ok true :=
  ((C9_compare_payload (List.replicate 25 7) (List.replicate 25 7) 21 4).1
    (by decide) (by decide)).mpr rfl

/-- Claim C10: each configuration setter mutates only its own field,
leaving every other configuration field and both socket handles
unchanged; each setter is a total function returning the updated session
(it never errors). -/
theorem C10_setters_frame (c : DualConn) (timeout : Int) (tos ttl flag : Nat) :
    SetTimeout c timeout =
      { sendConn := c.sendConn, recvConn := c.recvConn, localIP := c.localIP,
        timeout := timeout, tos := c.tos, ttl := c.ttl, ipv4Flag := c.ipv4Flag } ∧
    SetTOS c tos =
      { sendConn := c.sendConn, recvConn := c.recvConn, localIP := c.localIP,
        timeout := c.timeout, tos := tos, ttl := c.ttl, ipv4Flag := c.ipv4Flag } ∧
    SetTTL c ttl =
      { sendConn := c.sendConn, recvConn := c.recvConn, localIP := c.localIP,
        timeout := c.timeout, tos := c.tos, ttl := ttl, ipv4Flag := c.ipv4Flag } ∧
    SetIPv4Flag c flag =
      { sendConn := c.sendConn, recvConn := c.recvConn, localIP := c.localIP,
        timeout := c.timeout, tos := c.tos, ttl := c.ttl, ipv4Flag := flag } :=
  ⟨rfl, rfl, rfl, rfl⟩

end Dualconn
